import Mathlib

/-!
# Verification of the badminton game core

A shallow embedding of the deterministic game core of the Badminton-Game
repository: the `Ball` entity (`src/entities/Ball.ts`), the `Player` entity
(`src/entities/Player.ts`), the match controller fragments of
`src/core/Game.ts` (`checkHit`, `checkScoring`, `prepareServe`,
`broadcastGameState`, `applyNetworkState`), and the network input timeout of
`src/core/NetworkInput.ts`.

All numeric state is modelled over `ℚ` (the source arithmetic on these paths
is `+ - * abs` with rational literals, so the embedding is exact and
computable), except `Ball.hit`, which applies trigonometric impulse formulas
and is therefore modelled over `ℝ` (`BallR`).  Rendering, audio playback and
the transport layer are side effects outside the simulation state and are not
modelled; the ground-contact sound trigger of `Ball.update` is returned as an
explicit event flag because the match controller scores off the same
threshold.
-/

namespace Badminton

/-- Player side, from `src/utils/Constants.ts` (`enum PlayerSide`). -/
inductive PlayerSide where
  | LEFT
  | RIGHT
deriving DecidableEq, Repr

/-- Game state, from `src/utils/Constants.ts` (`enum GameState`). -/
inductive GameState where
  | LOADING
  | MENU
  | PLAYING
  | GAME_OVER
deriving DecidableEq, Repr

/-- Swing type, from `src/entities/Player.ts` (`enum SwingType`). -/
inductive SwingType where
  | UPWARD
  | DOWNWARD
deriving DecidableEq, Repr

namespace Constants

/-- `Constants.BOUNDARY_LEFT` -/
def BOUNDARY_LEFT : ℚ := 0
/-- `Constants.BOUNDARY_RIGHT` -/
def BOUNDARY_RIGHT : ℚ := 800
/-- `Constants.BOUNDARY_TOP` -/
def BOUNDARY_TOP : ℚ := 0
/-- `Constants.GRAVITY` (player gravity) -/
def GRAVITY : ℚ := 0.65
/-- `Constants.BALL_GRAVITY` -/
def BALL_GRAVITY : ℚ := 0.4
/-- `Constants.BALL_AIR_RESISTANCE` -/
def BALL_AIR_RESISTANCE : ℚ := 0.98
/-- `Constants.GROUND_Y` (player ground line) -/
def GROUND_Y : ℚ := 410
/-- `Constants.BALL_GROUND_Y` (ball ground-contact threshold) -/
def BALL_GROUND_Y : ℚ := 450
/-- `Constants.NET_X` -/
def NET_X : ℚ := 400
/-- `Constants.NET_HEIGHT` -/
def NET_HEIGHT : ℚ := 100
/-- `Constants.NET_BASE_Y` -/
def NET_BASE_Y : ℚ := 410
/-- `Constants.SERVICE_LINE_LEFT` -/
def SERVICE_LINE_LEFT : ℚ := 350
/-- `Constants.SERVICE_LINE_RIGHT` -/
def SERVICE_LINE_RIGHT : ℚ := 450
/-- `Constants.PLAYER_SPEED` -/
def PLAYER_SPEED : ℚ := 5
/-- `Constants.JUMP_FORCE` -/
def JUMP_FORCE : ℚ := 15.2
/-- `Constants.BALL_RADIUS` -/
def BALL_RADIUS : ℚ := 9
/-- `Constants.BALL_INITIAL_Y` -/
def BALL_INITIAL_Y : ℚ := 200
/-- `Constants.SWING_UPWARD_DURATION` (frames) -/
def SWING_UPWARD_DURATION : ℕ := 16
/-- `Constants.SWING_DOWNWARD_DURATION` (frames) -/
def SWING_DOWNWARD_DURATION : ℕ := 18
/-- `Constants.SERVING_ANIMATION_DURATION` (frames) -/
def SERVING_ANIMATION_DURATION : ℕ := 10
/-- `Constants.WINNING_SCORE` -/
def WINNING_SCORE : ℕ := 10
/-- `Constants.LEFT_BOUNDARY` (player world bound) -/
def LEFT_BOUNDARY : ℚ := 30
/-- `Constants.RIGHT_BOUNDARY` (player world bound) -/
def RIGHT_BOUNDARY : ℚ := 770
/-- `Constants.LEG_ANIMATION_SPEED` -/
def LEG_ANIMATION_SPEED : ℚ := 0.25

end Constants

/-- The six-boolean input intent vector (`Input` interface in
`src/core/Input.ts`). -/
structure Input where
  left : Bool
  right : Bool
  jump : Bool
  hit : Bool
  upward : Bool
  downward : Bool
deriving DecidableEq, Repr

/-- One point of the ball trail ring buffer (`{x, y, alpha}` entries of
`Ball.trail`). -/
structure TrailPoint (α : Type) where
  x : α
  y : α
  alpha : α
deriving DecidableEq, Repr

/-- The ball entity (`src/entities/Ball.ts`), over exact rational coordinates.
`wasInAir` is the private edge-trigger flag for the ground-contact event. -/
structure Ball where
  x : ℚ
  y : ℚ
  vx : ℚ
  vy : ℚ
  radius : ℚ
  trail : List (TrailPoint ℚ)
  wasInAir : Bool
deriving DecidableEq, Repr

namespace Ball

/-- `Ball.trailLength` (fixed at 8 in the source). -/
def trailLength : ℕ := 8

/-- The trail maintenance inside `Ball.update`: unshift the new position,
pop one element if the buffer exceeds `trailLength`, then recompute every
alpha as `1 - index / trailLength`. -/
def updateTrail (trail : List (TrailPoint ℚ)) (x y : ℚ) : List (TrailPoint ℚ) :=
  let t1 := { x := x, y := y, alpha := (1 : ℚ) } :: trail
  let t2 := if t1.length > trailLength then t1.dropLast else t1
  t2.enum.map fun ip => { x := ip.2.x, y := ip.2.y, alpha := 1 - (ip.1 : ℚ) / (trailLength : ℚ) }

/-- `Ball.checkNetCollision`: side collisions against a vertical strip of
width 15 around `NET_X`, then the net-top bounce.  Takes and returns
`(x, y, vx, vy)`. -/
def checkNetCollision (radius x y vx vy : ℚ) : ℚ × ℚ × ℚ × ℚ :=
  let netX := Constants.NET_X
  let netTopY := Constants.NET_BASE_Y - Constants.NET_HEIGHT
  let netBottomY := Constants.NET_BASE_Y
  let netWidth : ℚ := 15
  let ballInNetHeight := y - radius ≤ netBottomY ∧ y + radius ≥ netTopY
  let s :=
    if ballInNetHeight then
      if vx > 0 ∧ x + radius ≥ netX - netWidth / 2 ∧ x - radius ≤ netX then
        (netX - netWidth / 2 - radius, -vx * 0.6, vy * 0.8)
      else if vx < 0 ∧ x - radius ≤ netX + netWidth / 2 ∧ x + radius ≥ netX then
        (netX + netWidth / 2 + radius, -vx * 0.6, vy * 0.8)
      else (x, vx, vy)
    else (x, vx, vy)
  let x := s.1
  let vx := s.2.1
  let vy := s.2.2
  if vy > 0 ∧ |x - netX| ≤ netWidth / 2 + radius ∧ y - radius ≤ netTopY ∧ y + radius ≥ netTopY - 5 then
    (x, netTopY - radius, vx * 0.7, -vy * 0.5)
  else (x, y, vx, vy)

/-- The ground-contact edge detection at the end of `Ball.update`: given the
previous `wasInAir` flag and the final `y`, returns the new `wasInAir` flag
and whether the ground-impact event (the GROUND sound) fired this tick. -/
def groundStep (wasInAir : Bool) (y : ℚ) : Bool × Bool :=
  let isCurrentlyOnGround : Bool := decide (y ≥ Constants.BALL_GROUND_Y)
  if isCurrentlyOnGround && wasInAir then (false, true)
  else if !isCurrentlyOnGround then (true, false)
  else (wasInAir, false)

/-- Everything in `Ball.update` before the ground-contact detection:
gravity, air resistance, position integration, trail maintenance, the three
wall bounces and the net collision.  Leaves `wasInAir` untouched. -/
def physStep (b : Ball) : Ball :=
  let vy := (b.vy + Constants.BALL_GRAVITY) * Constants.BALL_AIR_RESISTANCE
  let vx := b.vx * Constants.BALL_AIR_RESISTANCE
  let x := b.x + vx
  let y := b.y + vy
  let trail := updateTrail b.trail x y
  let xvx := if x - b.radius < Constants.BOUNDARY_LEFT
    then (Constants.BOUNDARY_LEFT + b.radius, |vx| * 0.5) else (x, vx)
  let x := xvx.1
  let vx := xvx.2
  let xvx := if x + b.radius > Constants.BOUNDARY_RIGHT
    then (Constants.BOUNDARY_RIGHT - b.radius, -|vx| * 0.5) else (x, vx)
  let x := xvx.1
  let vx := xvx.2
  let yvy := if y - b.radius < Constants.BOUNDARY_TOP
    then (Constants.BOUNDARY_TOP + b.radius, |vy| * 0.5) else (y, vy)
  let y := yvy.1
  let vy := yvy.2
  let n := checkNetCollision b.radius x y vx vy
  { b with x := n.1, y := n.2.1, vx := n.2.2.1, vy := n.2.2.2, trail := trail }

/-- `Ball.update` (one fixed physics tick of the ball).  Returns the updated
ball together with the ground-contact edge event of this tick. -/
def update (b : Ball) : Ball × Bool :=
  let b1 := physStep b
  let gs := groundStep b.wasInAir b1.y
  ({ b1 with wasInAir := gs.1 }, gs.2)

/-- `Ball.serve(x, y, direction)`: teleport to `(x, y)` and launch with the
fixed serve velocity, clearing the trail. -/
def serve (b : Ball) (x y direction : ℚ) : Ball :=
  { b with x := x, y := y, vx := 11 * direction, vy := -18, trail := [] }

/-- `Ball.isOnGround()`: threshold comparison against `BALL_GROUND_Y`. -/
def isOnGround (b : Ball) : Prop := b.y ≥ Constants.BALL_GROUND_Y

instance (b : Ball) : Decidable b.isOnGround := by
  unfold isOnGround; infer_instance

/-- `Ball.reset(x, y)`: reposition with zero velocity and an empty trail. -/
def reset (b : Ball) (x y : ℚ) : Ball :=
  { b with x := x, y := y, vx := 0, vy := 0, trail := [] }

/-- Iterated ball physics ticks (the fixed-step scheduler applied to the
ball alone while it is in free flight). -/
def iterate (b : Ball) : ℕ → Ball
  | 0 => b
  | n + 1 => (update (iterate b n)).1

end Ball

/-- The ball entity over real coordinates, used for `Ball.hit`, whose impulse
formulas apply `Math.cos`/`Math.sin`. -/
structure BallR where
  x : ℝ
  y : ℝ
  vx : ℝ
  vy : ℝ
  radius : ℝ
  trail : List (TrailPoint ℝ)
  wasInAir : Bool

namespace BallR

/-- `Ball.hit(playerX, playerY, playerHeight, direction, racketAngle,
isUpward)`: the two disjoint impulse formulas.  The upward branch forces a
fixed 45-degree-up vector whose horizontal sign follows `direction`; the
downward branch mirrors the racket angle for `direction = -1`, biases it by
the fixed upward offset `-0.424` and scales by the base power.  Both branches
clear the trail. -/
noncomputable def hit (b : BallR) (playerX playerY playerHeight direction racketAngle : ℝ)
    (isUpward : Bool) : BallR :=
  let basePower : ℝ := 25
  let speedScale : ℝ := 1.00
  if isUpward then
    let upwardAngle : ℝ := -(Real.pi / 4)
    let speed := basePower * speedScale
    if direction = 1 then
      { b with vx := Real.cos upwardAngle * speed, vy := Real.sin upwardAngle * speed,
               trail := [] }
    else
      { b with vx := -Real.cos upwardAngle * speed, vy := Real.sin upwardAngle * speed,
               trail := [] }
  else
    let hitAngle0 := if direction = -1 then -racketAngle else racketAngle
    let angleBoost : ℝ := -0.424
    let hitAngle := hitAngle0 + angleBoost
    { b with vx := Real.cos hitAngle * basePower * direction * speedScale,
             vy := Real.sin hitAngle * basePower * speedScale,
             trail := [] }

end BallR

/-- The player entity (`src/entities/Player.ts`).  `onServeReady` models
whether the stored serve callback closure is installed (`onServeReady !==
null`); the callback body itself lives in the match controller. -/
structure Player where
  x : ℚ
  y : ℚ
  vx : ℚ
  vy : ℚ
  side : PlayerSide
  animationTime : ℚ
  isSwinging : Bool
  swingProgress : ℕ
  hitCooldown : ℕ
  isOnGround : Bool
  isServingMode : Bool
  isServingAnimation : Bool
  servingProgress : ℕ
  onServeReady : Bool
  swingType : SwingType
  hasHitInThisSwing : Bool
  hasHitInReturn : Bool
  wasOnGround : Bool
deriving DecidableEq, Repr

/-- The swing duration selected by swing type, as computed inline in
`Player.update` and `Player.isInReturnPhase`. -/
def swingDuration : SwingType → ℕ
  | SwingType.UPWARD => Constants.SWING_UPWARD_DURATION
  | SwingType.DOWNWARD => Constants.SWING_DOWNWARD_DURATION

namespace Player

/-- The net proximity clamp width (`netCollisionWidth`, local constant 12 in
`Player.update`). -/
def netCollisionWidth : ℚ := 12

/-- The three horizontal clamps of `Player.update`, in source order:
net-proximity clamp, the two world-boundary clamps, then the service-line
clamp.  Takes and returns `(x, vx)`; the clamps that stop the player also
zero `vx`. -/
def clampX (side : PlayerSide) (x0 vx0 : ℚ) : ℚ × ℚ :=
  let xv :=
    if side = PlayerSide.LEFT then
      if x0 > Constants.NET_X - netCollisionWidth
      then (Constants.NET_X - netCollisionWidth, (0 : ℚ)) else (x0, vx0)
    else
      if x0 < Constants.NET_X + netCollisionWidth
      then (Constants.NET_X + netCollisionWidth, (0 : ℚ)) else (x0, vx0)
  let x1 := if xv.1 < Constants.LEFT_BOUNDARY then Constants.LEFT_BOUNDARY else xv.1
  let x2 := if x1 > Constants.RIGHT_BOUNDARY then Constants.RIGHT_BOUNDARY else x1
  if side = PlayerSide.LEFT then
    if x2 > Constants.SERVICE_LINE_LEFT then (Constants.SERVICE_LINE_LEFT, (0 : ℚ)) else (x2, xv.2)
  else
    if x2 < Constants.SERVICE_LINE_RIGHT then (Constants.SERVICE_LINE_RIGHT, (0 : ℚ)) else (x2, xv.2)

/-- The movement part of `Player.update`: horizontal step velocity from the
left/right intents, position integration, the clamps, the jump trigger, and
vertical physics with the landing edge.  Touches only `x`, `vx`, `y`, `vy`,
`isOnGround`, `wasOnGround`. -/
def updateMove (p : Player) (input : Input) : Player :=
  let vx0 : ℚ :=
    if input.left then -Constants.PLAYER_SPEED
    else if input.right then Constants.PLAYER_SPEED
    else 0
  let xv := clampX p.side (p.x + vx0) vx0
  let jv : ℚ × Bool :=
    if input.jump && p.isOnGround then (-Constants.JUMP_FORCE, false) else (p.vy, p.isOnGround)
  if !jv.2 then
    let vy := jv.1 + Constants.GRAVITY
    let y := p.y + vy
    if y ≥ Constants.GROUND_Y then
      { p with x := xv.1, vx := xv.2, y := Constants.GROUND_Y, vy := 0, isOnGround := true,
               wasOnGround := if !p.wasOnGround then true else p.wasOnGround }
    else
      { p with x := xv.1, vx := xv.2, y := y, vy := vy, isOnGround := false, wasOnGround := false }
  else
    { p with x := xv.1, vx := xv.2, vy := jv.1, isOnGround := jv.2 }

/-- The two swing-initiation checks of `Player.update` (upward intent, then
downward intent), each gated only by `hitCooldown === 0`. -/
def updateSwingStart (p : Player) (input : Input) : Player :=
  let p1 :=
    if input.upward && decide (p.hitCooldown = 0) then
      { p with swingType := SwingType.UPWARD, isSwinging := true, swingProgress := 0,
               hasHitInThisSwing := false, hasHitInReturn := false,
               hitCooldown := Constants.SWING_UPWARD_DURATION }
    else p
  if input.downward && decide (p1.hitCooldown = 0) then
    { p1 with swingType := SwingType.DOWNWARD, isSwinging := true, swingProgress := 0,
              hasHitInThisSwing := false, hasHitInReturn := false,
              hitCooldown := Constants.SWING_DOWNWARD_DURATION }
  else p1

/-- The swing-progress block of `Player.update`: while swinging the progress
increments, and on reaching the duration the swing ends and the return-phase
hit flag is cleared. -/
def updateSwingAdvance (p : Player) : Player :=
  if p.isSwinging then
    let sp := p.swingProgress + 1
    if sp ≥ swingDuration p.swingType then
      { p with swingProgress := 0, isSwinging := false, hasHitInReturn := false }
    else { p with swingProgress := sp }
  else p

/-- The cooldown decrement of `Player.update`. -/
def updateCooldown (p : Player) : Player :=
  if p.hitCooldown > 0 then { p with hitCooldown := p.hitCooldown - 1 } else p

/-- The serve-animation block of `Player.update`: the progress counter
advances, the stored callback fires at the midpoint (an external side effect
on the match controller, not on the player state), and on completion the
animation, serving mode and callback are cleared. -/
def updateServeAnim (p : Player) : Player :=
  if p.isServingAnimation then
    let sp := p.servingProgress + 1
    if sp ≥ Constants.SERVING_ANIMATION_DURATION then
      { p with servingProgress := 0, isServingAnimation := false, isServingMode := false,
               onServeReady := false }
    else { p with servingProgress := sp }
  else p

/-- The leg-animation timer at the end of `Player.update`. -/
def updateAnimTime (p : Player) : Player :=
  if |p.vx| > 0.1 then { p with animationTime := p.animationTime + Constants.LEG_ANIMATION_SPEED }
  else p

/-- `Player.update(input)`: the full per-tick player step, in source order. -/
def update (p : Player) (input : Input) : Player :=
  updateAnimTime (updateServeAnim (updateCooldown (updateSwingAdvance
    (updateSwingStart (updateMove p input) input))))

/-- `Player.isInReturnPhase()`: swinging with progress past half the
duration.  The durations 16 and 18 are even, so natural division by 2 is
exact here. -/
def isInReturnPhase (p : Player) : Bool :=
  if !p.isSwinging then false
  else decide (p.swingProgress > swingDuration p.swingType / 2)

/-- `Player.setSwingType(ballY)`: picks the swing type from the ball height
relative to the neck line (`neckY = y - legLength - bodyLength = y - 64`);
a ball below the neck is low and gets the upward swing. -/
def setSwingType (p : Player) (ballY : ℚ) : Player :=
  if ballY > p.y - 64 then { p with swingType := SwingType.UPWARD }
  else { p with swingType := SwingType.DOWNWARD }

end Player

/-- The per-player half of `Game.checkHit`: while the player is swinging and
the racket-collision test succeeds, apply exactly one impulse per swing
phase, consuming the matching one-shot flag.  The geometric collision test
(`ball.checkRacketCollision` over the derived racket geometry) enters as the
boolean `collision`; the ball impulse itself (`ball.hit`) is a side effect on
the ball, counted here.  Returns the updated player and the number of
forward-phase and return-phase impulses applied this tick (each 0 or 1). -/
def checkHitPlayer (p : Player) (collision : Bool) : Player × ℕ × ℕ :=
  if p.isSwinging then
    if collision then
      let isReturn := p.isInReturnPhase
      if !isReturn && !p.hasHitInThisSwing then
        ({ p with hasHitInThisSwing := true }, 1, 0)
      else if isReturn && !p.hasHitInReturn then
        ({ p with hasHitInReturn := true }, 0, 1)
      else (p, 0, 0)
    else (p, 0, 0)
  else (p, 0, 0)

/-- The per-tick environment of one player during a rally: its input vector,
the ball height the controller feeds to `setSwingType`, and the outcome of
the racket-collision test after the entity updates of this tick. -/
structure RallyTickIn where
  input : Input
  ballY : ℚ
  collision : Bool

/-- One rally tick of the match controller restricted to a single player:
the pre-update `setSwingType` call (gated by the hit intent and zero
cooldown, as in `Game.update`), then `Player.update`, then the player's half
of `Game.checkHit`. -/
def rallyTick (p : Player) (t : RallyTickIn) : Player × ℕ × ℕ :=
  let p0 := if t.input.hit && decide (p.hitCooldown = 0) then p.setSwingType t.ballY else p
  checkHitPlayer (p0.update t.input) t.collision

/-- Accumulated (forward-phase, return-phase) impulse counts over successive
rally ticks, stopping as soon as the player is no longer swinging (the end of
the swing under scrutiny). -/
def swingHits (p : Player) : List RallyTickIn → ℕ × ℕ
  | [] => (0, 0)
  | t :: ts =>
    if p.isSwinging then
      let r := rallyTick p t
      let rest := swingHits r.1 ts
      (r.2.1 + rest.1, r.2.2 + rest.2)
    else (0, 0)

/-- The impulse counts over one complete swing: the adjudication of the
initiation tick itself (the swing starts inside `Player.update`, so the
first `checkHit` already sees it), followed by the remaining ticks of the
swing. -/
def episodeHits (p : Player) (c0 : Bool) (ts : List RallyTickIn) : ℕ × ℕ :=
  let r0 := checkHitPlayer p c0
  let rest := swingHits r0.1 ts
  (r0.2.1 + rest.1, r0.2.2 + rest.2)

/-- The match/rally state owned by `Game` (`src/core/Game.ts`): scores,
serving side, serve flags, the overall game state, and the entities the
scoring adjudication touches. -/
structure Game where
  ball : Ball
  player1 : Player
  player2 : Player
  leftScore : ℕ
  rightScore : ℕ
  servingSide : PlayerSide
  isServing : Bool
  waitingForServe : Bool
  state : GameState
deriving DecidableEq, Repr

namespace Game

/-- `Game.prepareServe`: back to the serving state with the ball
repositioned to the center. -/
def prepareServe (g : Game) : Game :=
  { g with isServing := true, waitingForServe := false,
           ball := g.ball.reset Constants.NET_X Constants.BALL_INITIAL_Y }

/-- `Game.checkScoring`: if the ball is on the ground, award the point by
which half holds the ball (`x < NET_X` scores for the right side), set the
serving side, and either enter game over at the winning score or prepare the
next serve.  The particle and sound side effects are not modelled. -/
def checkScoring (g : Game) : Game :=
  if g.ball.isOnGround then
    let g1 :=
      if g.ball.x < Constants.NET_X then
        { g with rightScore := g.rightScore + 1, servingSide := PlayerSide.RIGHT }
      else
        { g with leftScore := g.leftScore + 1, servingSide := PlayerSide.LEFT }
    if g1.leftScore ≥ Constants.WINNING_SCORE ∨ g1.rightScore ≥ Constants.WINNING_SCORE then
      { g1 with state := GameState.GAME_OVER }
    else prepareServe g1
  else g

end Game

/-- The ball block of `GameStatePacket` (`src/core/NetworkManager.ts`). -/
structure BallSync where
  x : ℚ
  y : ℚ
  vx : ℚ
  vy : ℚ
deriving DecidableEq, Repr

/-- A player block of `GameStatePacket`: the eleven synced player fields.
`swingType` travels as its numeric enum value. -/
structure PlayerSync where
  x : ℚ
  y : ℚ
  vx : ℚ
  vy : ℚ
  isSwinging : Bool
  swingProgress : ℕ
  swingType : ℕ
  animationTime : ℚ
  isOnGround : Bool
  isServingMode : Bool
  hitCooldown : ℕ
deriving DecidableEq, Repr

/-- The score block of `GameStatePacket`. -/
structure ScoreSync where
  left : ℕ
  right : ℕ
deriving DecidableEq, Repr

/-- `GameStatePacket` (`src/core/NetworkManager.ts`), minus the `type` tag
and the transport timestamp added by `sendGameState`. -/
structure GameStatePacket where
  ball : BallSync
  player1 : PlayerSync
  player2 : PlayerSync
  score : ScoreSync
  isServing : Bool
  waitingForServe : Bool
  servingSide : String
  isGameOver : Bool
  winner : String
deriving DecidableEq, Repr

/-- The numeric value of a `SwingType` enum member (`swingType as number`). -/
def swingTypeToNat : SwingType → ℕ
  | SwingType.UPWARD => 0
  | SwingType.DOWNWARD => 1

/-- The inverse cast `as SwingType` applied by the guest; the host only ever
sends the enum values 0 and 1. -/
def natToSwingType : ℕ → SwingType
  | 0 => SwingType.UPWARD
  | _ + 1 => SwingType.DOWNWARD

/-- The player block built by `Game.broadcastGameState`. -/
def playerSyncOf (p : Player) : PlayerSync :=
  { x := p.x, y := p.y, vx := p.vx, vy := p.vy,
    isSwinging := p.isSwinging, swingProgress := p.swingProgress,
    swingType := swingTypeToNat p.swingType, animationTime := p.animationTime,
    isOnGround := p.isOnGround, isServingMode := p.isServingMode,
    hitCooldown := p.hitCooldown }

namespace Game

/-- The snapshot serialized by `Game.broadcastGameState` (host only; the
30 Hz throttle and the connection guard decide when it is sent, not what it
contains). -/
def broadcastGameState (g : Game) : GameStatePacket :=
  { ball := { x := g.ball.x, y := g.ball.y, vx := g.ball.vx, vy := g.ball.vy },
    player1 := playerSyncOf g.player1,
    player2 := playerSyncOf g.player2,
    score := { left := g.leftScore, right := g.rightScore },
    isServing := g.isServing,
    waitingForServe := g.waitingForServe,
    servingSide := if g.servingSide = PlayerSide.LEFT then "LEFT" else "RIGHT",
    isGameOver := decide (g.state = GameState.GAME_OVER),
    winner := if g.leftScore ≥ Constants.WINNING_SCORE then "LEFT"
              else if g.rightScore ≥ Constants.WINNING_SCORE then "RIGHT"
              else "" }

end Game

/-- The eleven per-player assignments of `Game.applyNetworkState`; every
other player field keeps its guest-side value. -/
def applyPlayerSync (p : Player) (s : PlayerSync) : Player :=
  { p with x := s.x, y := s.y, vx := s.vx, vy := s.vy,
           isSwinging := s.isSwinging, swingProgress := s.swingProgress,
           swingType := natToSwingType s.swingType, animationTime := s.animationTime,
           isOnGround := s.isOnGround, isServingMode := s.isServingMode,
           hitCooldown := s.hitCooldown }

namespace Game

/-- `Game.applyNetworkState` (guest only): overwrite the local mirror with
the snapshot.  The sound triggers derived from diffing against the previous
mirror are side effects and are not modelled; the game-over transition is. -/
def applyNetworkState (g : Game) (s : GameStatePacket) : Game :=
  let g1 :=
    { g with
        ball := { g.ball with x := s.ball.x, y := s.ball.y, vx := s.ball.vx, vy := s.ball.vy },
        player1 := applyPlayerSync g.player1 s.player1,
        player2 := applyPlayerSync g.player2 s.player2,
        leftScore := s.score.left,
        rightScore := s.score.right,
        isServing := s.isServing,
        waitingForServe := s.waitingForServe,
        servingSide := if s.servingSide = "LEFT" then PlayerSide.LEFT else PlayerSide.RIGHT }
  if s.isGameOver && !decide (g.state = GameState.GAME_OVER) then
    { g1 with state := GameState.GAME_OVER }
  else g1

end Game

/-- `NetworkInput` (`src/core/NetworkInput.ts`): the received intent vector
plus the timestamp of the last applied input packet (milliseconds). -/
structure NetworkInput where
  left : Bool
  right : Bool
  jump : Bool
  upward : Bool
  downward : Bool
  hit : Bool
  lastUpdateTime : ℤ
deriving DecidableEq, Repr

namespace NetworkInput

/-- `NetworkInput.getInputAge()`: `Date.now()` minus the last packet
timestamp; the current clock is passed explicitly. -/
def getInputAge (n : NetworkInput) (now : ℤ) : ℤ :=
  now - n.lastUpdateTime

/-- `NetworkInput.update()`: past the 500 ms staleness window, reset the
held movement and jump intents; the remaining intents are kept because they
are treated as instantaneous. -/
def update (n : NetworkInput) (now : ℤ) : NetworkInput :=
  if n.getInputAge now > 500 then
    { n with left := false, right := false, jump := false }
  else n

end NetworkInput

/-! ## Concrete states used by witnesses and counterexamples -/

/-- A ball at the rally reset position. -/
def ballW : Ball :=
  { x := 400, y := 200, vx := 0, vy := 0, radius := 9, trail := [], wasInAir := true }

/-- A ball one tick away from hitting the ground. -/
def ballFalling : Ball :=
  { x := 200, y := 449, vx := 0, vy := 10, radius := 9, trail := [], wasInAir := true }

/-- The neutral input vector. -/
def inputNone : Input :=
  { left := false, right := false, jump := false, hit := false, upward := false,
    downward := false }

/-- The upward-swing intent alone. -/
def inputUpward : Input :=
  { left := false, right := false, jump := false, hit := false, upward := true,
    downward := false }

/-- A left-side player idle at its starting spot. -/
def playerW : Player :=
  { x := 170, y := 410, vx := 0, vy := 0, side := PlayerSide.LEFT, animationTime := 0,
    isSwinging := false, swingProgress := 0, hitCooldown := 0, isOnGround := true,
    isServingMode := false, isServingAnimation := false, servingProgress := 0,
    onServeReady := false, swingType := SwingType.UPWARD, hasHitInThisSwing := false,
    hasHitInReturn := false, wasOnGround := true }

/-- `playerW` immediately after an upward swing initiation tick: progress is
already 1 and the cooldown was set to the duration and then decremented
once. -/
def playerSwingW : Player :=
  { playerW with isSwinging := true, swingProgress := 1, hitCooldown := 15 }

/-- `playerW` in the middle of the serve animation with the cooldown
expired. -/
def playerServingAnimW : Player :=
  { playerW with isServingMode := true, isServingAnimation := true, servingProgress := 3,
                 onServeReady := true }

/-- A rally state with the ball grounded on the left half. -/
def gameW : Game :=
  { ball := { ballW with x := 100, y := 450 },
    player1 := playerW,
    player2 := { playerW with x := 630, side := PlayerSide.RIGHT },
    leftScore := 3, rightScore := 4,
    servingSide := PlayerSide.LEFT, isServing := false, waitingForServe := false,
    state := GameState.PLAYING }

/-- A stale network input source with every intent held. -/
def netInputW : NetworkInput :=
  { left := true, right := true, jump := true, upward := true, downward := true,
    hit := true, lastUpdateTime := 0 }

/-- The guest mirror produced by applying a host snapshot to a guest state. -/
def mirrorOf (host guest : Game) : Game :=
  guest.applyNetworkState host.broadcastGameState

/-! ## Theorems -/

/-- The guest cast `as SwingType` undoes the numeric serialization of the
swing type. -/
theorem natToSwingType_swingTypeToNat (t : SwingType) : natToSwingType (swingTypeToNat t) = t := by
  cases t <;> rfl

/-- The LEFT/RIGHT string tag round-trips through serialization. -/
theorem servingSide_roundtrip (s : PlayerSide) :
    (if (if s = PlayerSide.LEFT then "LEFT" else "RIGHT") = "LEFT"
     then PlayerSide.LEFT else PlayerSide.RIGHT) = s := by
  cases s <;> decide

/-- **C5, counterexample.** After a 501 ms silence the host input source
clears `jump` as well, so `jump` is not preserved as the claim states. -/
theorem network_timeout_clears_jump_cex :
    (netInputW.update 501).jump = false ∧ netInputW.jump = true ∧
    netInputW.getInputAge 501 > 500 := by decide

/-- **C5, amended.** When the host input source has seen no packet for more
than 500 ms, its update clears `left`, `right` and `jump`, and preserves
`upward`, `downward` and `hit` exactly as last received. -/
theorem network_timeout_spec (n : NetworkInput) (now : ℤ) (h : n.getInputAge now > 500) :
    (n.update now).left = false ∧ (n.update now).right = false ∧
    (n.update now).jump = false ∧
    (n.update now).upward = n.upward ∧ (n.update now).downward = n.downward ∧
    (n.update now).hit = n.hit ∧ (n.update now).lastUpdateTime = n.lastUpdateTime := by
  unfold NetworkInput.update
  rw [if_pos h]
  exact ⟨rfl, rfl, rfl, rfl, rfl, rfl, rfl⟩

/-- **C5, witness.** The amended timeout behavior at a concrete stale
source. -/
theorem network_timeout_spec_witness :
    netInputW.getInputAge 501 > 500 ∧ (netInputW.update 501).upward = netInputW.upward := by
  exact ⟨by decide, (network_timeout_spec netInputW 501 (by decide)).2.2.2.1⟩

/-- **C7, counterexample.** `Ball.serve` teleports the ball to the given
position, so serving at `y = 500` (below the ground threshold) leaves
`isOnGround()` true immediately, refuting the claim for arbitrary
positions. -/
theorem serve_onGround_cex : (ballW.serve 400 500 1).isOnGround := by decide

/-- **C7, amended.** For every position with `y` above the ground threshold
(`y < BALL_GROUND_Y = 450`) and every direction, `Ball.serve(x, y, d)`
followed immediately by `isOnGround()` is false, and the serve vertical
velocity is always the fixed upward value `-18`. -/
theorem serve_not_onGround_spec (b : Ball) (x y d : ℚ) (h : y < Constants.BALL_GROUND_Y) :
    ¬ (b.serve x y d).isOnGround ∧ (b.serve x y d).vy = -18 := by
  exact ⟨not_le.mpr h, rfl⟩

/-- **C7, witness.** A serve from the ball-hand height is not on the
ground. -/
theorem serve_not_onGround_spec_witness :
    (300 : ℚ) < Constants.BALL_GROUND_Y ∧ ¬ (ballW.serve 170 300 1).isOnGround := by
  exact ⟨by decide, (serve_not_onGround_spec ballW 170 300 1 (by decide)).1⟩

/-- **C10.** `Ball.hit` in both branches changes only the velocity and
clears the trail: position and radius are untouched for every hitter
position, height, direction and racket angle; only `Ball.serve` and
`Ball.reset` teleport the ball, to exactly the coordinates they are given. -/
theorem hit_frame_spec (b : BallR) (px py ph d ra : ℝ) (u : Bool) (bq : Ball)
    (sx sy sd rx ry : ℚ) :
    (b.hit px py ph d ra u).x = b.x ∧ (b.hit px py ph d ra u).y = b.y ∧
    (b.hit px py ph d ra u).radius = b.radius ∧ (b.hit px py ph d ra u).trail = [] ∧
    (bq.serve sx sy sd).x = sx ∧ (bq.serve sx sy sd).y = sy ∧
    (bq.reset rx ry).x = rx ∧ (bq.reset rx ry).y = ry := by
  unfold BallR.hit Ball.serve Ball.reset
  split_ifs <;> exact ⟨rfl, rfl, rfl, rfl, rfl, rfl, rfl, rfl⟩

/-- **C2.** An upward hit ignores the racket angle entirely: with
`direction = 1` the velocity is the fixed 45-degrees-up vector
`(cos(-pi/4) * 25, sin(-pi/4) * 25)` with `vx > 0`, `vy < 0` and magnitude
exactly the upward base power 25; with `direction = -1` only the horizontal
sign flips; both variants clear the trail. -/
theorem hit_upward_spec (b : BallR) (px py ph ra : ℝ) :
    (b.hit px py ph 1 ra true).vx = Real.cos (-(Real.pi / 4)) * 25 ∧
    (b.hit px py ph 1 ra true).vy = Real.sin (-(Real.pi / 4)) * 25 ∧
    0 < (b.hit px py ph 1 ra true).vx ∧
    (b.hit px py ph 1 ra true).vy < 0 ∧
    (b.hit px py ph 1 ra true).vx ^ 2 + (b.hit px py ph 1 ra true).vy ^ 2 = 25 ^ 2 ∧
    (b.hit px py ph (-1) ra true).vx = -(b.hit px py ph 1 ra true).vx ∧
    (b.hit px py ph (-1) ra true).vy = (b.hit px py ph 1 ra true).vy ∧
    (b.hit px py ph 1 ra true).trail = [] ∧
    (b.hit px py ph (-1) ra true).trail = [] := by
  have e1 : b.hit px py ph 1 ra true =
      { b with vx := Real.cos (-(Real.pi / 4)) * 25, vy := Real.sin (-(Real.pi / 4)) * 25,
               trail := [] } := by
    unfold BallR.hit
    norm_num
  have e2 : b.hit px py ph (-1) ra true =
      { b with vx := -Real.cos (-(Real.pi / 4)) * 25, vy := Real.sin (-(Real.pi / 4)) * 25,
               trail := [] } := by
    unfold BallR.hit
    norm_num
  have hcos : Real.cos (-(Real.pi / 4)) = Real.sqrt 2 / 2 := by
    rw [Real.cos_neg, Real.cos_pi_div_four]
  have hsin : Real.sin (-(Real.pi / 4)) = -(Real.sqrt 2 / 2) := by
    rw [Real.sin_neg, Real.sin_pi_div_four]
  have hs2 : (0 : ℝ) < Real.sqrt 2 := Real.sqrt_pos.mpr (by norm_num)
  have hmag := Real.sin_sq_add_cos_sq (-(Real.pi / 4))
  rw [e1, e2]
  refine ⟨rfl, rfl, ?_, ?_, ?_, by ring, rfl, rfl, rfl⟩
  · rw [hcos]; positivity
  · rw [hsin]; nlinarith [hs2]
  · nlinarith [hmag]

/-- **C6.** Serializing a host state with `broadcastGameState` and applying
the snapshot with `applyNetworkState` on any guest mirror reproduces every
snapshot field exactly: ball kinematics, all eleven synced fields of both
players, both scores, the serve flags and the serving side. -/
theorem snapshot_roundtrip (host guest : Game) :
    (mirrorOf host guest).ball.x = host.ball.x ∧
    (mirrorOf host guest).ball.y = host.ball.y ∧
    (mirrorOf host guest).ball.vx = host.ball.vx ∧
    (mirrorOf host guest).ball.vy = host.ball.vy ∧
    (mirrorOf host guest).player1.x = host.player1.x ∧
    (mirrorOf host guest).player1.y = host.player1.y ∧
    (mirrorOf host guest).player1.vx = host.player1.vx ∧
    (mirrorOf host guest).player1.vy = host.player1.vy ∧
    (mirrorOf host guest).player1.isSwinging = host.player1.isSwinging ∧
    (mirrorOf host guest).player1.swingProgress = host.player1.swingProgress ∧
    (mirrorOf host guest).player1.swingType = host.player1.swingType ∧
    (mirrorOf host guest).player1.animationTime = host.player1.animationTime ∧
    (mirrorOf host guest).player1.isOnGround = host.player1.isOnGround ∧
    (mirrorOf host guest).player1.isServingMode = host.player1.isServingMode ∧
    (mirrorOf host guest).player1.hitCooldown = host.player1.hitCooldown ∧
    (mirrorOf host guest).player2.x = host.player2.x ∧
    (mirrorOf host guest).player2.y = host.player2.y ∧
    (mirrorOf host guest).player2.vx = host.player2.vx ∧
    (mirrorOf host guest).player2.vy = host.player2.vy ∧
    (mirrorOf host guest).player2.isSwinging = host.player2.isSwinging ∧
    (mirrorOf host guest).player2.swingProgress = host.player2.swingProgress ∧
    (mirrorOf host guest).player2.swingType = host.player2.swingType ∧
    (mirrorOf host guest).player2.animationTime = host.player2.animationTime ∧
    (mirrorOf host guest).player2.isOnGround = host.player2.isOnGround ∧
    (mirrorOf host guest).player2.isServingMode = host.player2.isServingMode ∧
    (mirrorOf host guest).player2.hitCooldown = host.player2.hitCooldown ∧
    (mirrorOf host guest).leftScore = host.leftScore ∧
    (mirrorOf host guest).rightScore = host.rightScore ∧
    (mirrorOf host guest).isServing = host.isServing ∧
    (mirrorOf host guest).waitingForServe = host.waitingForServe ∧
    (mirrorOf host guest).servingSide = host.servingSide := by
  unfold mirrorOf Game.applyNetworkState Game.broadcastGameState applyPlayerSync playerSyncOf
  cases hs : host.servingSide <;>
    (split_ifs <;> simp_all [natToSwingType_swingTypeToNat])

/-- **C1, counterexample.** With the ball grounded on the left half, the
right side scores the point, yet `checkScoring` sets the serving side to the
scorer (`RIGHT`) rather than to the scorer's opponent (`LEFT`) as the claim
states. -/
theorem checkScoring_servingSide_cex :
    gameW.ball.isOnGround ∧ gameW.ball.x < Constants.NET_X ∧
    gameW.checkScoring.rightScore = gameW.rightScore + 1 ∧
    gameW.checkScoring.servingSide ≠ PlayerSide.LEFT := by
  refine ⟨by decide, by decide, by decide, by decide⟩

/-- **C1, amended.** When the ball is on the ground during rally
adjudication (with both running totals still below the winning score),
`checkScoring` awards exactly one point to the side whose half does not
contain the ball, sets the serving side to the scoring side itself, and
either transitions to game over (when the scorer reaches
`WINNING_SCORE = 10`) or returns to serving with the ball repositioned to
`(NET_X, BALL_INITIAL_Y)`. -/
theorem checkScoring_spec (g : Game) (h : g.ball.isOnGround)
    (hL : g.leftScore < Constants.WINNING_SCORE)
    (hR : g.rightScore < Constants.WINNING_SCORE) :
    (g.ball.x < Constants.NET_X →
      g.checkScoring.rightScore = g.rightScore + 1 ∧
      g.checkScoring.leftScore = g.leftScore ∧
      g.checkScoring.servingSide = PlayerSide.RIGHT ∧
      (g.rightScore + 1 = Constants.WINNING_SCORE →
        g.checkScoring.state = GameState.GAME_OVER ∧ g.checkScoring.ball = g.ball) ∧
      (g.rightScore + 1 < Constants.WINNING_SCORE →
        g.checkScoring.state = g.state ∧ g.checkScoring.isServing = true ∧
        g.checkScoring.waitingForServe = false ∧
        g.checkScoring.ball.x = Constants.NET_X ∧
        g.checkScoring.ball.y = Constants.BALL_INITIAL_Y)) ∧
    (¬ g.ball.x < Constants.NET_X →
      g.checkScoring.leftScore = g.leftScore + 1 ∧
      g.checkScoring.rightScore = g.rightScore ∧
      g.checkScoring.servingSide = PlayerSide.LEFT ∧
      (g.leftScore + 1 = Constants.WINNING_SCORE →
        g.checkScoring.state = GameState.GAME_OVER ∧ g.checkScoring.ball = g.ball) ∧
      (g.leftScore + 1 < Constants.WINNING_SCORE →
        g.checkScoring.state = g.state ∧ g.checkScoring.isServing = true ∧
        g.checkScoring.waitingForServe = false ∧
        g.checkScoring.ball.x = Constants.NET_X ∧
        g.checkScoring.ball.y = Constants.BALL_INITIAL_Y)) := by
  unfold Game.checkScoring Game.prepareServe Ball.reset
  rw [if_pos h]
  constructor
  · intro hx
    rw [if_pos hx]
    simp only [ge_iff_le]
    split_ifs with hw
    · exact ⟨rfl, rfl, rfl, fun _ => ⟨rfl, rfl⟩, fun hlt => absurd hw (by omega)⟩
    · simp only [not_or, not_le] at hw
      exact ⟨rfl, rfl, rfl, fun heq => absurd heq (by omega), fun _ => ⟨rfl, rfl, rfl, rfl, rfl⟩⟩
  · intro hx
    rw [if_neg hx]
    simp only [ge_iff_le]
    split_ifs with hw
    · exact ⟨rfl, rfl, rfl, fun _ => ⟨rfl, rfl⟩, fun hlt => absurd hw (by omega)⟩
    · simp only [not_or, not_le] at hw
      exact ⟨rfl, rfl, rfl, fun heq => absurd heq (by omega), fun _ => ⟨rfl, rfl, rfl, rfl, rfl⟩⟩

/-- **C1, witness.** The amended scoring behavior at a concrete grounded
rally state: the right side scores, serves next, and the match is reset to
serving with the ball at center. -/
theorem checkScoring_spec_witness :
    gameW.ball.isOnGround ∧
    gameW.checkScoring.rightScore = gameW.rightScore + 1 ∧
    gameW.checkScoring.servingSide = PlayerSide.RIGHT ∧
    gameW.checkScoring.isServing = true ∧
    gameW.checkScoring.ball.x = Constants.NET_X := by
  have h := (checkScoring_spec gameW (by decide) (by decide) (by decide)).1 (by decide)
  exact ⟨by decide, h.1, h.2.2.1, (h.2.2.2.2 (by decide)).2.1, (h.2.2.2.2 (by decide)).2.2.2.1⟩

/-! ### Player stage lemmas -/

/-- The movement stage never touches the swing, cooldown or serve-animation
state. -/
theorem updateMove_swing_fields (p : Player) (i : Input) :
    (Player.updateMove p i).isSwinging = p.isSwinging ∧
    (Player.updateMove p i).swingProgress = p.swingProgress ∧
    (Player.updateMove p i).swingType = p.swingType ∧
    (Player.updateMove p i).hasHitInThisSwing = p.hasHitInThisSwing ∧
    (Player.updateMove p i).hasHitInReturn = p.hasHitInReturn ∧
    (Player.updateMove p i).hitCooldown = p.hitCooldown ∧
    (Player.updateMove p i).isServingAnimation = p.isServingAnimation ∧
    (Player.updateMove p i).side = p.side := by
  simp only [Player.updateMove]
  split_ifs <;> exact ⟨rfl, rfl, rfl, rfl, rfl, rfl, rfl, rfl⟩

/-- The swing-initiation stage never touches position or side. -/
theorem updateSwingStart_pos_fields (p : Player) (i : Input) :
    (Player.updateSwingStart p i).x = p.x ∧ (Player.updateSwingStart p i).side = p.side := by
  simp only [Player.updateSwingStart]
  split_ifs <;> exact ⟨rfl, rfl⟩

/-- With a nonzero cooldown, both swing-initiation checks are skipped. -/
theorem updateSwingStart_skip (p : Player) (i : Input) (h : p.hitCooldown ≠ 0) :
    Player.updateSwingStart p i = p := by
  unfold Player.updateSwingStart
  simp [h]

/-- The swing-advance stage never touches position, cooldown, swing type,
the forward-phase flag, or side. -/
theorem updateSwingAdvance_fields (p : Player) :
    (Player.updateSwingAdvance p).x = p.x ∧
    (Player.updateSwingAdvance p).hitCooldown = p.hitCooldown ∧
    (Player.updateSwingAdvance p).swingType = p.swingType ∧
    (Player.updateSwingAdvance p).hasHitInThisSwing = p.hasHitInThisSwing ∧
    (Player.updateSwingAdvance p).side = p.side := by
  simp only [Player.updateSwingAdvance]
  split_ifs <;> exact ⟨rfl, rfl, rfl, rfl, rfl⟩

/-- The cooldown stage decrements the cooldown (truncated at zero) and
touches nothing else. -/
theorem updateCooldown_fields (p : Player) :
    (Player.updateCooldown p).x = p.x ∧
    (Player.updateCooldown p).isSwinging = p.isSwinging ∧
    (Player.updateCooldown p).swingProgress = p.swingProgress ∧
    (Player.updateCooldown p).swingType = p.swingType ∧
    (Player.updateCooldown p).hasHitInThisSwing = p.hasHitInThisSwing ∧
    (Player.updateCooldown p).hasHitInReturn = p.hasHitInReturn ∧
    (Player.updateCooldown p).hitCooldown = p.hitCooldown - 1 ∧
    (Player.updateCooldown p).side = p.side := by
  simp only [Player.updateCooldown]
  split_ifs with h
  · exact ⟨rfl, rfl, rfl, rfl, rfl, rfl, rfl, rfl⟩
  · have h0 : p.hitCooldown = 0 := by omega
    exact ⟨rfl, rfl, rfl, rfl, rfl, rfl, by omega, rfl⟩

/-- The serve-animation stage never touches position or the swing state. -/
theorem updateServeAnim_fields (p : Player) :
    (Player.updateServeAnim p).x = p.x ∧
    (Player.updateServeAnim p).isSwinging = p.isSwinging ∧
    (Player.updateServeAnim p).swingProgress = p.swingProgress ∧
    (Player.updateServeAnim p).swingType = p.swingType ∧
    (Player.updateServeAnim p).hasHitInThisSwing = p.hasHitInThisSwing ∧
    (Player.updateServeAnim p).hasHitInReturn = p.hasHitInReturn ∧
    (Player.updateServeAnim p).hitCooldown = p.hitCooldown ∧
    (Player.updateServeAnim p).side = p.side := by
  simp only [Player.updateServeAnim]
  split_ifs <;> exact ⟨rfl, rfl, rfl, rfl, rfl, rfl, rfl, rfl⟩

/-- The leg-animation stage never touches position or the swing state. -/
theorem updateAnimTime_fields (p : Player) :
    (Player.updateAnimTime p).x = p.x ∧
    (Player.updateAnimTime p).isSwinging = p.isSwinging ∧
    (Player.updateAnimTime p).swingProgress = p.swingProgress ∧
    (Player.updateAnimTime p).swingType = p.swingType ∧
    (Player.updateAnimTime p).hasHitInThisSwing = p.hasHitInThisSwing ∧
    (Player.updateAnimTime p).hasHitInReturn = p.hasHitInReturn ∧
    (Player.updateAnimTime p).hitCooldown = p.hitCooldown ∧
    (Player.updateAnimTime p).side = p.side := by
  simp only [Player.updateAnimTime]
  split_ifs <;> exact ⟨rfl, rfl, rfl, rfl, rfl, rfl, rfl, rfl⟩

/-- The `x` produced by a full `Player.update` is the `x` produced by its
movement stage. -/
theorem update_x (p : Player) (i : Input) :
    (Player.update p i).x = (Player.updateMove p i).x := by
  unfold Player.update
  rw [(updateAnimTime_fields _).1, (updateServeAnim_fields _).1, (updateCooldown_fields _).1,
      (updateSwingAdvance_fields _).1, (updateSwingStart_pos_fields _ _).1]

/-- The three horizontal clamps keep `x` inside the world bounds and on the
player's own side of the net strip. -/
theorem clampX_bounds (side : PlayerSide) (x0 vx0 : ℚ) :
    Constants.LEFT_BOUNDARY ≤ (Player.clampX side x0 vx0).1 ∧
    (Player.clampX side x0 vx0).1 ≤ Constants.RIGHT_BOUNDARY ∧
    (side = PlayerSide.LEFT →
      (Player.clampX side x0 vx0).1 ≤ Constants.NET_X - Player.netCollisionWidth) ∧
    (side = PlayerSide.RIGHT →
      Constants.NET_X + Player.netCollisionWidth ≤ (Player.clampX side x0 vx0).1) := by
  rcases side <;>
    (simp only [Player.clampX, Player.netCollisionWidth, Constants.LEFT_BOUNDARY,
       Constants.RIGHT_BOUNDARY, Constants.NET_X, Constants.SERVICE_LINE_LEFT,
       Constants.SERVICE_LINE_RIGHT]
     split_ifs <;> refine ⟨?_, ?_, ?_, ?_⟩ <;> intros <;> simp_all <;> linarith)

/-- **C8.** After every `Player.update`, for every input and every starting
state, the player's `x` lies within the world bounds `[30, 770]`, and on its
own side of the net-proximity clamp: a LEFT player ends with
`x ≤ NET_X - 12` and a RIGHT player with `x ≥ NET_X + 12`. -/
theorem player_x_within_bounds (p : Player) (i : Input) :
    Constants.LEFT_BOUNDARY ≤ (Player.update p i).x ∧
    (Player.update p i).x ≤ Constants.RIGHT_BOUNDARY ∧
    (p.side = PlayerSide.LEFT → (Player.update p i).x ≤ Constants.NET_X - 12) ∧
    (p.side = PlayerSide.RIGHT → Constants.NET_X + 12 ≤ (Player.update p i).x) := by
  rw [update_x]
  have hb := clampX_bounds p.side
    (p.x + (if i.left then -Constants.PLAYER_SPEED else if i.right then Constants.PLAYER_SPEED else 0))
    (if i.left then -Constants.PLAYER_SPEED else if i.right then Constants.PLAYER_SPEED else 0)
  have hx : (Player.updateMove p i).x =
      (Player.clampX p.side
        (p.x + (if i.left then -Constants.PLAYER_SPEED else if i.right then Constants.PLAYER_SPEED else 0))
        (if i.left then -Constants.PLAYER_SPEED else if i.right then Constants.PLAYER_SPEED else 0)).1 := by
    simp only [Player.updateMove]
    split_ifs <;> rfl
  rw [hx]
  exact hb

/-- **C8, witness.** The bounds at a concrete state and input. -/
theorem player_x_within_bounds_witness :
    Constants.LEFT_BOUNDARY ≤ (Player.update playerW inputNone).x ∧
    (Player.update playerW inputNone).x ≤ Constants.RIGHT_BOUNDARY := by
  exact ⟨(player_x_within_bounds playerW inputNone).1,
         (player_x_within_bounds playerW inputNone).2.1⟩

/-- **C4, counterexample.** With the cooldown expired but the serve
animation still running, an upward intent does initiate a swing, so the
claim's `isServingAnimation = false` requirement is not enforced by the
code. -/
theorem swing_init_during_serve_animation_cex :
    playerServingAnimW.isServingAnimation = true ∧
    playerServingAnimW.hitCooldown = 0 ∧
    playerServingAnimW.isSwinging = false ∧
    (playerServingAnimW.update inputUpward).isSwinging = true := by
  refine ⟨rfl, rfl, rfl, ?_⟩
  norm_num [Player.update, Player.updateMove, Player.updateSwingStart, Player.updateSwingAdvance,
    Player.updateCooldown, Player.updateServeAnim, Player.updateAnimTime, Player.clampX,
    Player.netCollisionWidth, playerServingAnimW, playerW, inputUpward, swingDuration,
    Constants.PLAYER_SPEED, Constants.NET_X, Constants.LEFT_BOUNDARY, Constants.RIGHT_BOUNDARY,
    Constants.SERVICE_LINE_LEFT, Constants.SERVICE_LINE_RIGHT, Constants.JUMP_FORCE,
    Constants.GRAVITY, Constants.GROUND_Y, Constants.SWING_UPWARD_DURATION,
    Constants.SWING_DOWNWARD_DURATION, Constants.SERVING_ANIMATION_DURATION,
    Constants.LEG_ANIMATION_SPEED]

/-- **C4, amended.** A new swing is initiated exactly when an upward or
downward intent arrives with `hitCooldown = 0`, regardless of the serve
animation: with a nonzero cooldown the intents have no effect at all on the
update, and with a zero cooldown they always start the swing (observable
after the update as `isSwinging = true`, the progress having been reset to 0
and already advanced to 1 within the same tick). -/
theorem swing_init_gate_spec (p : Player) (i : Input) :
    (p.hitCooldown ≠ 0 →
      Player.update p i = Player.update p { i with upward := false, downward := false }) ∧
    (p.hitCooldown = 0 → (i.upward = true ∨ i.downward = true) →
      (Player.update p i).isSwinging = true ∧ (Player.update p i).swingProgress = 1) := by
  constructor
  · intro hc
    unfold Player.update
    have hm : Player.updateMove p { i with upward := false, downward := false } =
        Player.updateMove p i := rfl
    rw [hm, updateSwingStart_skip _ i (by rw [(updateMove_swing_fields p i).2.2.2.2.2.1]; exact hc),
        updateSwingStart_skip _ _ (by rw [(updateMove_swing_fields p i).2.2.2.2.2.1]; exact hc)]
  · intro hc hud
    have hmc : (Player.updateMove p i).hitCooldown = 0 := by
      rw [(updateMove_swing_fields p i).2.2.2.2.2.1]; exact hc
    have hstart : (Player.updateSwingStart (Player.updateMove p i) i).isSwinging = true ∧
        (Player.updateSwingStart (Player.updateMove p i) i).swingProgress = 0 ∧
        1 < swingDuration (Player.updateSwingStart (Player.updateMove p i) i).swingType := by
      rcases hu : i.upward with _ | _
      · rcases hd : i.downward with _ | _
        · rcases hud with hud | hud
          · rw [hu] at hud; exact Bool.noConfusion hud
          · rw [hd] at hud; exact Bool.noConfusion hud
        · have hq1 : Player.updateSwingStart (Player.updateMove p i) i =
              { (Player.updateMove p i) with
                  swingType := SwingType.DOWNWARD, isSwinging := true,
                  swingProgress := 0, hasHitInThisSwing := false, hasHitInReturn := false,
                  hitCooldown := Constants.SWING_DOWNWARD_DURATION } := by
            simp only [Player.updateSwingStart]
            rw [hu, hd]
            simp [hmc]
          rw [hq1]
          exact ⟨rfl, rfl, by norm_num [swingDuration, Constants.SWING_DOWNWARD_DURATION]⟩
      · have hq1 : Player.updateSwingStart (Player.updateMove p i) i =
            { (Player.updateMove p i) with
                swingType := SwingType.UPWARD, isSwinging := true,
                swingProgress := 0, hasHitInThisSwing := false, hasHitInReturn := false,
                hitCooldown := Constants.SWING_UPWARD_DURATION } := by
          simp only [Player.updateSwingStart]
          rw [hu]
          simp [hmc, Constants.SWING_UPWARD_DURATION]
        rw [hq1]
        exact ⟨rfl, rfl, by norm_num [swingDuration, Constants.SWING_UPWARD_DURATION]⟩
    have hadv :
        (Player.updateSwingAdvance (Player.updateSwingStart (Player.updateMove p i) i)).isSwinging
          = true ∧
        (Player.updateSwingAdvance
          (Player.updateSwingStart (Player.updateMove p i) i)).swingProgress = 1 := by
      have hne : ¬ ((Player.updateSwingStart (Player.updateMove p i) i).swingProgress + 1 ≥
          swingDuration (Player.updateSwingStart (Player.updateMove p i) i).swingType) := by
        rw [hstart.2.1]
        have := hstart.2.2
        omega
      simp only [Player.updateSwingAdvance]
      rw [if_pos hstart.1, if_neg hne]
      exact ⟨hstart.1, by rw [hstart.2.1]⟩
    unfold Player.update
    constructor
    · rw [(updateAnimTime_fields _).2.1, (updateServeAnim_fields _).2.1,
          (updateCooldown_fields _).2.1]
      exact hadv.1
    · rw [(updateAnimTime_fields _).2.2.1, (updateServeAnim_fields _).2.2.1,
          (updateCooldown_fields _).2.2.1]
      exact hadv.2

/-- **C4, witness.** The amended gate at concrete states: an upward intent
with zero cooldown starts a swing. -/
theorem swing_init_gate_spec_witness :
    playerW.hitCooldown = 0 ∧ (Player.update playerW inputUpward).isSwinging = true := by
  exact ⟨rfl, ((swing_init_gate_spec playerW inputUpward).2 rfl (Or.inl rfl)).1⟩

/-! ### Ground-contact edge event (C9) -/

/-- The new `wasInAir` flag after a tick records exactly "the ball ended the
tick off the ground". -/
theorem groundStep_eq (w : Bool) (y : ℚ) :
    Ball.groundStep w y =
      (!(decide (y ≥ Constants.BALL_GROUND_Y)), decide (y ≥ Constants.BALL_GROUND_Y) && w) := by
  unfold Ball.groundStep
  by_cases h : y ≥ Constants.BALL_GROUND_Y <;> rcases w <;> simp [h]

/-- After any `Ball.update` the `wasInAir` flag equals "not on the ground at
the end of this tick". -/
theorem update_wasInAir (b : Ball) :
    (Ball.update b).1.wasInAir = !(decide ((Ball.update b).1.y ≥ Constants.BALL_GROUND_Y)) := by
  show (Ball.groundStep b.wasInAir (Ball.physStep b).y).1 = _
  rw [groundStep_eq]
  rfl

/-- The ground event of a tick fires exactly when the tick ends on the
ground and the previous `wasInAir` flag was set. -/
theorem update_fired (b : Ball) :
    (Ball.update b).2 = (decide ((Ball.update b).1.y ≥ Constants.BALL_GROUND_Y) && b.wasInAir) := by
  show (Ball.groundStep b.wasInAir (Ball.physStep b).y).2 = _
  rw [groundStep_eq]
  rfl

/-- **C9.** Starting from any ball whose `wasInAir` flag is consistent with
its height (as the constructor and every update leave it), the ground-impact
event of tick `n + 1` fires exactly when that tick ends at or below the
ground threshold while the previous tick ended above it: the event marks the
airborne-to-ground transition and cannot re-fire on consecutive grounded
ticks until the ball has left ground contact. -/
theorem ground_event_edge_spec (b : Ball) (n : ℕ)
    (h : b.wasInAir = !(decide (b.y ≥ Constants.BALL_GROUND_Y))) :
    (Ball.update (Ball.iterate b n)).2 = true ↔
      ((Ball.iterate b (n + 1)).y ≥ Constants.BALL_GROUND_Y ∧
       ¬ (Ball.iterate b n).y ≥ Constants.BALL_GROUND_Y) := by
  have hw : ∀ m : ℕ,
      (Ball.iterate b m).wasInAir = !(decide ((Ball.iterate b m).y ≥ Constants.BALL_GROUND_Y)) := by
    intro m
    induction m with
    | zero => exact h
    | succ k ih => exact update_wasInAir (Ball.iterate b k)
  have hy : (Ball.iterate b (n + 1)).y = (Ball.update (Ball.iterate b n)).1.y := rfl
  rw [update_fired, hw n, hy]
  rcases hg1 : decide ((Ball.update (Ball.iterate b n)).1.y ≥ Constants.BALL_GROUND_Y) <;>
    rcases hg0 : decide ((Ball.iterate b n).y ≥ Constants.BALL_GROUND_Y) <;>
      simp_all

/-- **C9, witness.** A falling ball crosses the threshold on its next tick
and the event fires. -/
theorem ground_event_edge_spec_witness :
    ballFalling.wasInAir = !(decide (ballFalling.y ≥ Constants.BALL_GROUND_Y)) ∧
    (Ball.update (Ball.iterate ballFalling 0)).2 = true := by
  have h0 : ballFalling.wasInAir = !(decide (ballFalling.y ≥ Constants.BALL_GROUND_Y)) := by
    norm_num [ballFalling, Constants.BALL_GROUND_Y]
  refine ⟨h0, ?_⟩
  rw [ground_event_edge_spec ballFalling 0 h0]
  constructor
  · show (Ball.update ballFalling).1.y ≥ Constants.BALL_GROUND_Y
    norm_num [Ball.update, Ball.physStep, Ball.checkNetCollision, Ball.updateTrail,
      Ball.groundStep, ballFalling, Constants.BALL_GRAVITY, Constants.BALL_AIR_RESISTANCE,
      Constants.BOUNDARY_LEFT, Constants.BOUNDARY_RIGHT, Constants.BOUNDARY_TOP,
      Constants.NET_X, Constants.NET_BASE_Y, Constants.NET_HEIGHT, Constants.BALL_GROUND_Y]
  · norm_num [Ball.iterate, ballFalling, Constants.BALL_GROUND_Y]

/-! ### At most two contacts per swing (C3) -/

/-- Swing durations are 16 and 18 frames. -/
theorem swingDuration_ge_two (t : SwingType) : 2 ≤ swingDuration t := by
  cases t <;> simp [swingDuration, Constants.SWING_UPWARD_DURATION,
    Constants.SWING_DOWNWARD_DURATION]

/-- A non-swinging player registers no contact. -/
theorem checkHitPlayer_not_swinging (p : Player) (c : Bool) (h : ¬ p.isSwinging = true) :
    checkHitPlayer p c = (p, 0, 0) := by
  unfold checkHitPlayer
  rw [if_neg h]

/-- A non-swinging player accumulates no contacts. -/
theorem swingHits_not_swinging (p : Player) (ts : List RallyTickIn)
    (h : ¬ p.isSwinging = true) : swingHits p ts = (0, 0) := by
  cases ts with
  | nil => rfl
  | cons t ts => unfold swingHits; rw [if_neg h]

/-- With a nonzero cooldown the controller's pre-update `setSwingType` call
is skipped. -/
theorem rallyTick_of_cooldown_ne (p : Player) (t : RallyTickIn) (hc : p.hitCooldown ≠ 0) :
    rallyTick p t = checkHitPlayer (p.update t.input) t.collision := by
  unfold rallyTick
  simp [hc]

/-- The per-player contact adjudication: it never touches the swing
progress, cooldown or type, emits at most one contact of each phase, emits a
contact only when the matching one-shot flag was clear, and sets the flag
exactly when it emits. -/
theorem checkHitPlayer_char (p : Player) (c : Bool) :
    (checkHitPlayer p c).1.isSwinging = p.isSwinging ∧
    (checkHitPlayer p c).1.swingProgress = p.swingProgress ∧
    (checkHitPlayer p c).1.swingType = p.swingType ∧
    (checkHitPlayer p c).1.hitCooldown = p.hitCooldown ∧
    (checkHitPlayer p c).2.1 ≤ 1 ∧ (checkHitPlayer p c).2.2 ≤ 1 ∧
    ((checkHitPlayer p c).2.1 = 0 ∨ p.hasHitInThisSwing = false) ∧
    ((checkHitPlayer p c).2.2 = 0 ∨ p.hasHitInReturn = false) ∧
    ((checkHitPlayer p c).1.hasHitInThisSwing = true ↔
      (p.hasHitInThisSwing = true ∨ (checkHitPlayer p c).2.1 = 1)) ∧
    ((checkHitPlayer p c).1.hasHitInReturn = true ↔
      (p.hasHitInReturn = true ∨ (checkHitPlayer p c).2.2 = 1)) := by
  simp only [checkHitPlayer]
  split_ifs <;> simp_all

/-- `updateSwingAdvance` on a swinging player either advances the progress
or, at the duration, ends the swing and clears the return flag. -/
theorem updateSwingAdvance_char (q : Player) (hq : q.isSwinging = true) :
    (q.swingProgress + 1 < swingDuration q.swingType →
      Player.updateSwingAdvance q = { q with swingProgress := q.swingProgress + 1 }) ∧
    (¬ q.swingProgress + 1 < swingDuration q.swingType →
      Player.updateSwingAdvance q =
        { q with swingProgress := 0, isSwinging := false, hasHitInReturn := false }) := by
  constructor
  · intro hlt
    simp only [Player.updateSwingAdvance]
    rw [if_pos hq, if_neg (by omega)]
  · intro hge
    simp only [Player.updateSwingAdvance]
    rw [if_pos hq, if_pos (by omega)]

/-- The three stages after the swing-advance block preserve the swing state
and decrement the cooldown. -/
theorem post_advance_fields (q : Player) :
    (Player.updateAnimTime (Player.updateServeAnim (Player.updateCooldown q))).isSwinging
      = q.isSwinging ∧
    (Player.updateAnimTime (Player.updateServeAnim (Player.updateCooldown q))).swingProgress
      = q.swingProgress ∧
    (Player.updateAnimTime (Player.updateServeAnim (Player.updateCooldown q))).swingType
      = q.swingType ∧
    (Player.updateAnimTime (Player.updateServeAnim (Player.updateCooldown q))).hasHitInThisSwing
      = q.hasHitInThisSwing ∧
    (Player.updateAnimTime (Player.updateServeAnim (Player.updateCooldown q))).hasHitInReturn
      = q.hasHitInReturn ∧
    (Player.updateAnimTime (Player.updateServeAnim (Player.updateCooldown q))).hitCooldown
      = q.hitCooldown - 1 := by
  have h1 := updateCooldown_fields q
  have h2 := updateServeAnim_fields (Player.updateCooldown q)
  have h3 := updateAnimTime_fields (Player.updateServeAnim (Player.updateCooldown q))
  exact ⟨by rw [h3.2.1, h2.2.1, h1.2.1],
         by rw [h3.2.2.1, h2.2.2.1, h1.2.2.1],
         by rw [h3.2.2.2.1, h2.2.2.2.1, h1.2.2.2.1],
         by rw [h3.2.2.2.2.1, h2.2.2.2.2.1, h1.2.2.2.2.1],
         by rw [h3.2.2.2.2.2.1, h2.2.2.2.2.2.1, h1.2.2.2.2.2.1],
         by rw [h3.2.2.2.2.2.2.1, h2.2.2.2.2.2.2.1, h1.2.2.2.2.2.2.1]⟩

/-- `Player.update` on a mid-swing player with a live cooldown: the swing
type and forward flag are preserved, the cooldown decrements, and the swing
either advances by one frame (keeping the return flag) or ends at the
duration. -/
theorem update_swing_char (p : Player) (i : Input) (hs : p.isSwinging = true)
    (hc : p.hitCooldown ≠ 0) :
    (Player.update p i).swingType = p.swingType ∧
    (Player.update p i).hasHitInThisSwing = p.hasHitInThisSwing ∧
    (Player.update p i).hitCooldown = p.hitCooldown - 1 ∧
    (p.swingProgress + 1 < swingDuration p.swingType →
      (Player.update p i).isSwinging = true ∧
      (Player.update p i).swingProgress = p.swingProgress + 1 ∧
      (Player.update p i).hasHitInReturn = p.hasHitInReturn) ∧
    (¬ p.swingProgress + 1 < swingDuration p.swingType →
      (Player.update p i).isSwinging = false) := by
  obtain ⟨h1, h2, h3, h4, h5, h6, -, -⟩ := updateMove_swing_fields p i
  have key : Player.update p i =
      Player.updateAnimTime (Player.updateServeAnim (Player.updateCooldown
        (Player.updateSwingAdvance (Player.updateMove p i)))) := by
    unfold Player.update
    rw [updateSwingStart_skip (Player.updateMove p i) i (by rw [h6]; exact hc)]
  have hadvf := updateSwingAdvance_fields (Player.updateMove p i)
  have hpost := post_advance_fields (Player.updateSwingAdvance (Player.updateMove p i))
  have hchar := updateSwingAdvance_char (Player.updateMove p i) (by rw [h1]; exact hs)
  refine ⟨?_, ?_, ?_, ?_, ?_⟩
  · rw [key, hpost.2.2.1, hadvf.2.2.1, h3]
  · rw [key, hpost.2.2.2.1, hadvf.2.2.2.1, h4]
  · rw [key, hpost.2.2.2.2.2, hadvf.2.1, h6]
  · intro hlt
    have hadv := hchar.1 (by rw [h2, h3]; exact hlt)
    rw [key, hadv]
    refine ⟨?_, ?_, ?_⟩
    · rw [(post_advance_fields _).1]
      exact h1.symm ▸ hs
    · rw [(post_advance_fields _).2.1]
      show (Player.updateMove p i).swingProgress + 1 = p.swingProgress + 1
      rw [h2]
    · rw [(post_advance_fields _).2.2.2.2.1]
      exact h5
  · intro hge
    have hadv := hchar.2 (by rw [h2, h3]; exact hge)
    rw [key, hadv]
    rw [(post_advance_fields _).1]

/-- The inductive bound behind C3: from any state whose cooldown covers the
rest of the swing, the remaining ticks of the swing register at most one
forward-phase and at most one return-phase contact, and none at all once the
matching one-shot flag is consumed. -/
theorem swingHits_bound (ts : List RallyTickIn) : ∀ p : Player,
    (p.isSwinging = true →
      swingDuration p.swingType ≤ p.hitCooldown + p.swingProgress ∧
      p.swingProgress < swingDuration p.swingType) →
    (swingHits p ts).1 ≤ (if p.isSwinging = true ∧ p.hasHitInThisSwing = false then 1 else 0) ∧
    (swingHits p ts).2 ≤ (if p.isSwinging = true ∧ p.hasHitInReturn = false then 1 else 0) := by
  induction ts with
  | nil =>
    intro p _
    exact ⟨Nat.zero_le _, Nat.zero_le _⟩
  | cons t ts ih =>
    intro p hinv
    by_cases hsw : p.isSwinging = true
    · obtain ⟨hcov, hlt⟩ := hinv hsw
      have hc : p.hitCooldown ≠ 0 := by omega
      have hstep : swingHits p (t :: ts) =
          if p.isSwinging = true then
            ((rallyTick p t).2.1 + (swingHits (rallyTick p t).1 ts).1,
             (rallyTick p t).2.2 + (swingHits (rallyTick p t).1 ts).2)
          else (0, 0) := rfl
      rw [hstep, if_pos hsw, rallyTick_of_cooldown_ne p t hc]
      have huc := update_swing_char p t.input hsw hc
      have hch := checkHitPlayer_char (p.update t.input) t.collision
      by_cases hcont : p.swingProgress + 1 < swingDuration p.swingType
      · obtain ⟨hus, hup, hur⟩ := huc.2.2.2.1 hcont
        have hinv2 : ((checkHitPlayer (p.update t.input) t.collision).1.isSwinging = true →
            swingDuration (checkHitPlayer (p.update t.input) t.collision).1.swingType ≤
              (checkHitPlayer (p.update t.input) t.collision).1.hitCooldown +
              (checkHitPlayer (p.update t.input) t.collision).1.swingProgress ∧
            (checkHitPlayer (p.update t.input) t.collision).1.swingProgress <
              swingDuration (checkHitPlayer (p.update t.input) t.collision).1.swingType) := by
          intro _
          rw [hch.2.2.1, hch.2.1, hch.2.2.2.1, huc.1, huc.2.2.1, hup]
          omega
        have hrest := ih (checkHitPlayer (p.update t.input) t.collision).1 hinv2
        constructor
        · rcases hch.2.2.2.2.2.2.1 with hf0 | hfclear
          · -- no forward contact this tick
            rw [hf0, Nat.zero_add]
            refine le_trans hrest.1 ?_
            split_ifs with hA hB hB
            · exact le_refl 1
            · -- rest could be 1 only if the flag is still clear upstream
              exfalso
              apply hB
              refine ⟨hsw, ?_⟩
              rcases hA with ⟨-, hAf⟩
              by_cases hpf : p.hasHitInThisSwing = false
              · exact hpf
              · exfalso
                have hpt : p.hasHitInThisSwing = true := by
                  rcases hx : p.hasHitInThisSwing with _ | _
                  · exact absurd hx hpf
                  · rfl
                have : (checkHitPlayer (p.update t.input) t.collision).1.hasHitInThisSwing
                    = true := by
                  rw [hch.2.2.2.2.2.2.2.2.1]
                  exact Or.inl (huc.2.1.symm ▸ hpt)
                rw [this] at hAf
                exact Bool.noConfusion hAf
            · exact Nat.zero_le _
            · exact le_refl 0
          · -- the forward flag was clear before this tick
            have hpf : p.hasHitInThisSwing = false := by rw [← huc.2.1]; exact hfclear
            rw [if_pos ⟨hsw, hpf⟩]
            rcases hf1 : (checkHitPlayer (p.update t.input) t.collision).2.1 with _ | k
            · -- no contact emitted: the rest keeps the budget of one
              rw [Nat.zero_add]
              exact le_trans hrest.1 (by split_ifs <;> omega)
            · -- contact emitted: the flag is now set, so the rest is zero
              have hk1 : k = 0 := by
                have := hch.2.2.2.2.1
                omega
              subst hk1
              have hset : (checkHitPlayer (p.update t.input) t.collision).1.hasHitInThisSwing
                  = true := by
                rw [hch.2.2.2.2.2.2.2.2.1]
                exact Or.inr hf1
              have hrz : (swingHits (checkHitPlayer (p.update t.input) t.collision).1 ts).1
                  ≤ 0 := by
                refine le_trans hrest.1 ?_
                rw [if_neg]
                rintro ⟨-, hcl⟩
                rw [hset] at hcl
                exact Bool.noConfusion hcl
              omega
        · rcases hch.2.2.2.2.2.2.2.1 with hr0 | hrclear
          · rw [hr0, Nat.zero_add]
            refine le_trans hrest.2 ?_
            split_ifs with hA hB hB
            · exact le_refl 1
            · exfalso
              apply hB
              refine ⟨hsw, ?_⟩
              rcases hA with ⟨-, hAr⟩
              by_cases hpr : p.hasHitInReturn = false
              · exact hpr
              · exfalso
                have hpt : p.hasHitInReturn = true := by
                  rcases hx : p.hasHitInReturn with _ | _
                  · exact absurd hx hpr
                  · rfl
                have : (checkHitPlayer (p.update t.input) t.collision).1.hasHitInReturn
                    = true := by
                  rw [hch.2.2.2.2.2.2.2.2.2]
                  exact Or.inl (hur.symm ▸ hpt)
                rw [this] at hAr
                exact Bool.noConfusion hAr
            · exact Nat.zero_le _
            · exact le_refl 0
          · have hpr : p.hasHitInReturn = false := by rw [← hur]; exact hrclear
            rw [if_pos ⟨hsw, hpr⟩]
            rcases hf1 : (checkHitPlayer (p.update t.input) t.collision).2.2 with _ | k
            · rw [Nat.zero_add]
              exact le_trans hrest.2 (by split_ifs <;> omega)
            · have hk1 : k = 0 := by
                have := hch.2.2.2.2.2.1
                omega
              subst hk1
              have hset : (checkHitPlayer (p.update t.input) t.collision).1.hasHitInReturn
                  = true := by
                rw [hch.2.2.2.2.2.2.2.2.2]
                exact Or.inr hf1
              have hrz : (swingHits (checkHitPlayer (p.update t.input) t.collision).1 ts).2
                  ≤ 0 := by
                refine le_trans hrest.2 ?_
                rw [if_neg]
                rintro ⟨-, hcl⟩
                rw [hset] at hcl
                exact Bool.noConfusion hcl
              omega
      · -- the swing ends inside this update: no further contacts at all
        have hus : (p.update t.input).isSwinging = false := huc.2.2.2.2 hcont
        have hnosw : ¬ (p.update t.input).isSwinging = true := by
          rw [hus]; exact Bool.noConfusion
        have hchz := checkHitPlayer_not_swinging (p.update t.input) t.collision hnosw
        rw [hchz]
        have hz := swingHits_not_swinging (p.update t.input) ts hnosw
        rw [hz]
        exact ⟨by simp, by simp⟩
    · rw [swingHits_not_swinging p (t :: ts) hsw]
      exact ⟨Nat.zero_le _, Nat.zero_le _⟩

/-- **C3.** Over one complete swing — starting from the state produced by an
initiation tick (`isSwinging` just set, progress already advanced to 1,
both one-shot flags clear, cooldown equal to the remaining duration) and
running until `isSwinging` falls back to false — the hit adjudication of the
match controller applies at most one ball impulse while `isInReturnPhase()`
is false and at most one while it is true (so at most two in total), for
every input sequence and every sequence of collision outcomes; and
`isInReturnPhase()` holds exactly when swinging with
`swingProgress > duration / 2`. -/
theorem swing_at_most_two_contacts (p : Player) (c0 : Bool) (ts : List RallyTickIn)
    (hs : p.isSwinging = true) (hp : p.swingProgress = 1)
    (hf : p.hasHitInThisSwing = false) (hr : p.hasHitInReturn = false)
    (hc : p.hitCooldown = swingDuration p.swingType - 1) :
    (episodeHits p c0 ts).1 ≤ 1 ∧ (episodeHits p c0 ts).2 ≤ 1 ∧
    (∀ q : Player, q.isInReturnPhase = true ↔
      (q.isSwinging = true ∧ swingDuration q.swingType / 2 < q.swingProgress)) := by
  have hd2 := swingDuration_ge_two p.swingType
  have hch := checkHitPlayer_char p c0
  have hinv : ((checkHitPlayer p c0).1.isSwinging = true →
      swingDuration (checkHitPlayer p c0).1.swingType ≤
        (checkHitPlayer p c0).1.hitCooldown + (checkHitPlayer p c0).1.swingProgress ∧
      (checkHitPlayer p c0).1.swingProgress <
        swingDuration (checkHitPlayer p c0).1.swingType) := by
    intro _
    rw [hch.2.1, hch.2.2.1, hch.2.2.2.1, hp, hc]
    omega
  have hrest := swingHits_bound ts (checkHitPlayer p c0).1 hinv
  have hepi : episodeHits p c0 ts =
      ((checkHitPlayer p c0).2.1 + (swingHits (checkHitPlayer p c0).1 ts).1,
       (checkHitPlayer p c0).2.2 + (swingHits (checkHitPlayer p c0).1 ts).2) := rfl
  refine ⟨?_, ?_, ?_⟩
  · rw [hepi]
    have he1 : (checkHitPlayer p c0).2.1 ≤ 1 := hch.2.2.2.2.1
    have hb1 : (swingHits (checkHitPlayer p c0).1 ts).1 ≤ 1 :=
      le_trans hrest.1 (by split_ifs <;> omega)
    rcases hval : (checkHitPlayer p c0).2.1 with _ | k
    · simpa using hb1
    · have hk : k = 0 := by omega
      subst hk
      have hfwd : (checkHitPlayer p c0).1.hasHitInThisSwing = true :=
        hch.2.2.2.2.2.2.2.2.1.mpr (Or.inr hval)
      have hz : (swingHits (checkHitPlayer p c0).1 ts).1 ≤ 0 := by
        refine le_trans hrest.1 ?_
        rw [if_neg]
        rintro ⟨-, hcl⟩
        rw [hfwd] at hcl
        exact Bool.noConfusion hcl
      omega
  · rw [hepi]
    have he2 : (checkHitPlayer p c0).2.2 ≤ 1 := hch.2.2.2.2.2.1
    have hb2 : (swingHits (checkHitPlayer p c0).1 ts).2 ≤ 1 :=
      le_trans hrest.2 (by split_ifs <;> omega)
    rcases hval : (checkHitPlayer p c0).2.2 with _ | k
    · simpa using hb2
    · have hk : k = 0 := by omega
      subst hk
      have hret : (checkHitPlayer p c0).1.hasHitInReturn = true :=
        hch.2.2.2.2.2.2.2.2.2.mpr (Or.inr hval)
      have hz : (swingHits (checkHitPlayer p c0).1 ts).2 ≤ 0 := by
        refine le_trans hrest.2 ?_
        rw [if_neg]
        rintro ⟨-, hcl⟩
        rw [hret] at hcl
        exact Bool.noConfusion hcl
      omega
  · intro q
    unfold Player.isInReturnPhase
    rcases hq : q.isSwinging <;> simp [hq]

/-- **C3, witness.** The bound at a freshly initiated upward swing with a
colliding first tick and no further ticks. -/
theorem swing_at_most_two_contacts_witness :
    playerSwingW.isSwinging = true ∧
    (episodeHits playerSwingW true []).1 ≤ 1 ∧ (episodeHits playerSwingW true []).2 ≤ 1 := by
  have h := swing_at_most_two_contacts playerSwingW true [] rfl rfl rfl rfl rfl
  exact ⟨rfl, h.1, h.2.1⟩

end Badminton
